import Mathlib

-- Verification development for scripts/init-missing-repos.ts:
-- a one-shot scaffolding script that, for each entry of a hardcoded
-- repository list, creates a directory, writes template files, runs
-- git commands and attempts to create a remote GitHub repository.
--
-- The script is embedded shallowly: every filesystem write, directory
-- creation, console line and external command invocation becomes an
-- explicit step; execution is a fuel-free interpreter over step lists,
-- parameterised by a failure oracle for the effectful steps.
-- JSON objects written with JSON.stringify are modelled structurally
-- (field for field, in source order); template-literal file contents are
-- modelled as the exact strings the script writes.

namespace InitRepos

-- ### JavaScript string primitives
-- Kernel-reducible models of the JS string operations the script uses
-- (String.prototype.startsWith, .split, .charAt(0).toUpperCase() + .slice(1)).

def listPrefixOf : List Char → List Char → Bool
  | [], _ => true
  | _ :: _, [] => false
  | a :: as, b :: bs => a == b && listPrefixOf as bs

-- JS `s.startsWith(pre)`.
def strStartsWith (s pre : String) : Bool :=
  listPrefixOf pre.data s.data

def strEndsWith (s post : String) : Bool :=
  listPrefixOf post.data.reverse s.data.reverse

def containsAux (pat : List Char) : List Char → Bool
  | [] => listPrefixOf pat []
  | c :: cs => listPrefixOf pat (c :: cs) || containsAux pat cs

-- `pat` occurs as a contiguous substring of `s`.
def strContainsSub (s pat : String) : Bool :=
  containsAux pat.data s.data

def splitOnChar (sep : Char) : List Char → List (List Char)
  | [] => [[]]
  | c :: cs =>
    let r := splitOnChar sep cs
    if c == sep then [] :: r
    else
      match r with
      | [] => [[c]]
      | w :: ws => (c :: w) :: ws

-- JS `s.split('-')`.
def jsSplitDash (s : String) : List String :=
  (splitOnChar '-' s.data).map String.mk

-- JS `w.charAt(0).toUpperCase() + w.slice(1)` (ASCII names in this script).
def jsCapitalize (w : String) : String :=
  match w.data with
  | [] => ""
  | c :: cs => String.mk (Char.toUpper c :: cs)

-- `config.name.split('-').map(w => w.charAt(0).toUpperCase() + w.slice(1)).join('')`
def pascalName (n : String) : String :=
  String.join ((jsSplitDash n).map jsCapitalize)

-- The class name used in the generated plugin stub: the pascal-cased
-- name with the literal "Plugin" suffix appended at the template site.
def pluginClassName (n : String) : String :=
  pascalName n ++ "Plugin"

-- ### Data model (interface RepoConfig, lines 13-19)

inductive RepoType
  | library
  | app
  | plugin
  | docs
  | config
deriving DecidableEq

structure RepoConfig where
  name : String
  description : String
  isPrivate : Bool
  type : RepoType
  dependencies : Option (List String) := none
deriving DecidableEq

def BASE_DIR : String := "/Users/andrewpankov/Documents/GitHub/cloudflare-studio"

-- ### The hardcoded descriptor list REPOS_TO_CREATE (lines 21-84)

def claudeDocsRepo : RepoConfig :=
  { name := "claude-docs"
    description := "🤖 AI-first documentation system for Cloudflare Studio"
    isPrivate := false
    type := .library }

def dotClaudeRepo : RepoConfig :=
  { name := ".claude"
    description := "🧠 Organization AI brain - Multi-repo Claude context management"
    isPrivate := false
    type := .docs }

def billingRepo : RepoConfig :=
  { name := "billing"
    description := "💳 Billing system with Stripe integration"
    isPrivate := true
    type := .app
    dependencies := some ["stripe", "@cloudflare-studio/runtime"] }

def analyticsRepo : RepoConfig :=
  { name := "analytics"
    description := "📊 Usage analytics and metrics tracking"
    isPrivate := true
    type := .app
    dependencies := some ["@cloudflare/workers-types"] }

def pluginAiRepo : RepoConfig :=
  { name := "plugin-ai"
    description := "🤖 AI-powered automation plugin ($99/month)"
    isPrivate := true
    type := .plugin
    dependencies := some ["@cloudflare-studio/plugin-interface", "openai"] }

def pluginEnterpriseRepo : RepoConfig :=
  { name := "plugin-enterprise"
    description := "🏢 Enterprise features plugin (custom pricing)"
    isPrivate := true
    type := .plugin
    dependencies := some ["@cloudflare-studio/plugin-interface"] }

def infrastructureRepo : RepoConfig :=
  { name := "infrastructure"
    description := "🏗️ Our own infrastructure managed by cfstudio"
    isPrivate := true
    type := .config }

def runbooksRepo : RepoConfig :=
  { name := "runbooks"
    description := "📚 Operational runbooks and workflows"
    isPrivate := true
    type := .config }

def monitoringRepo : RepoConfig :=
  { name := "monitoring"
    description := "📡 Monitoring and alerting configuration"
    isPrivate := true
    type := .app
    dependencies := some ["@cloudflare/workers-types"] }

def REPOS_TO_CREATE : List RepoConfig :=
  [claudeDocsRepo, dotClaudeRepo, billingRepo, analyticsRepo, pluginAiRepo,
   pluginEnterpriseRepo, infrastructureRepo, runbooksRepo, monitoringRepo]

-- ### Structural model of the JSON files (createPackageJson, createTsConfig)

structure PackageJson where
  name : String
  version : String
  description : String
  moduleType : String
  main : Option String
  types : Option String
  scripts : List (String × String)
  repositoryType : String
  repositoryUrl : String
  homepage : String
  isPrivate : Bool
  dependencies : Option (List (String × String))
  devDependencies : List (String × String)
deriving DecidableEq

-- The object built by createPackageJson (lines 96-141).  JS object spreads
-- `...(cond && \x7b...\x7d)` become conditional fields; the dependencies
-- `reduce` over an accumulator object becomes an ordered association list.
def createPackageJson (config : RepoConfig) : PackageJson :=
  { name := "@cloudflare-studio/" ++ config.name
    version := "0.1.0"
    description := config.description
    moduleType := "module"
    main := if config.type ≠ .config then some "dist/index.js" else none
    types := if config.type ≠ .config then some "dist/index.d.ts" else none
    scripts :=
      if config.type ≠ .config then
        [("dev", "tsx watch src/index.ts"),
         ("build", "tsup src/index.ts --format esm"),
         ("typecheck", "tsc --noEmit"),
         ("test", "vitest run"),
         ("test:watch", "vitest")]
      else
        [("validate", "cfstudio validate"),
         ("deploy", "cfstudio deploy")]
    repositoryType := "git"
    repositoryUrl := "git+https://github.com/cloudflare-studio/" ++ config.name ++ ".git"
    homepage := "https://github.com/cloudflare-studio/" ++ config.name ++ "#readme"
    isPrivate := config.isPrivate
    dependencies :=
      config.dependencies.map (fun deps =>
        deps.map (fun dep =>
          (dep, if strStartsWith dep "@cloudflare-studio/" then "workspace:*" else "latest")))
    devDependencies :=
      [("@types/node", "^20.0.0"),
       ("tsx", "^4.0.0"),
       ("tsup", "^8.0.0"),
       ("typescript", "^5.0.0"),
       ("vitest", "^1.0.0")] }

structure TsConfig where
  target : String
  module : String
  lib : List String
  moduleResolution : String
  esModuleInterop : Bool
  skipLibCheck : Bool
  strict : Bool
  outDir : String
  rootDir : String
  declaration : Bool
  declarationMap : Bool
  sourceMap : Bool
  includePaths : List String
  excludePaths : List String
deriving DecidableEq

-- The object built by createTsConfig (lines 149-167).
def tsconfigObject : TsConfig :=
  { target := "ES2022"
    module := "ESNext"
    lib := ["ES2022"]
    moduleResolution := "bundler"
    esModuleInterop := true
    skipLibCheck := true
    strict := true
    outDir := "dist"
    rootDir := "src"
    declaration := true
    declarationMap := true
    sourceMap := true
    includePaths := ["src/**/*"]
    excludePaths := ["node_modules", "dist"] }

-- ### Template-literal file contents
-- Exact strings written by the script (braces in text are \x7b / \x7d).

-- createSourceFiles, plugin branch (lines 181-207).
def pluginCode (config : RepoConfig) : String :=
  "import \x7b Plugin, PluginCapabilities \x7d from '@cloudflare-studio/plugin-interface'\n" ++
  "\n" ++
  "export class " ++ pascalName config.name ++ "Plugin implements Plugin \x7b\n" ++
  "  name = '" ++ config.name ++ "'\n" ++
  "  version = '0.1.0'\n" ++
  "  \n" ++
  "  capabilities: PluginCapabilities = \x7b\n" ++
  "    resources: [\n" ++
  "      // Define resource types this plugin manages\n" ++
  "    ],\n" ++
  "    actions: [\n" ++
  "      // Define actions this plugin provides\n" ++
  "    ]\n" ++
  "  \x7d\n" ++
  "  \n" ++
  "  async initialize() \x7b\n" ++
  "    console.log('" ++ config.name ++ " plugin initialized')\n" ++
  "  \x7d\n" ++
  "  \n" ++
  "  async execute(action: string, inputs: any) \x7b\n" ++
  "    console.log(`Executing $\x7baction\x7d with inputs:`, inputs)\n" ++
  "    return \x7b success: true \x7d\n" ++
  "  \x7d\n" ++
  "\x7d\n" ++
  "\n" ++
  "export default new " ++ pascalName config.name ++ "Plugin()\n"

-- createSourceFiles, app branch (lines 212-226).
def appCode (config : RepoConfig) : String :=
  "/**\n" ++
  " * " ++ config.description ++ "\n" ++
  " */\n" ++
  "\n" ++
  "export async function main() \x7b\n" ++
  "  console.log('" ++ config.name ++ " starting...')\n" ++
  "  \n" ++
  "  // TODO: Implement " ++ config.name ++ " logic\n" ++
  "\x7d\n" ++
  "\n" ++
  "// Run if called directly\n" ++
  "if (import.meta.url === `file://$\x7bprocess.argv[1]\x7d`) \x7b\n" ++
  "  main().catch(console.error)\n" ++
  "\x7d\n"

-- createSourceFiles, library branch (lines 231-242).
def libCode (config : RepoConfig) : String :=
  "/**\n" ++
  " * " ++ config.description ++ "\n" ++
  " */\n" ++
  "\n" ++
  "export const version = '0.1.0'\n" ++
  "\n" ++
  "export function hello() \x7b\n" ++
  "  return 'Hello from " ++ config.name ++ "!'\n" ++
  "\x7d\n" ++
  "\n" ++
  "// TODO: Implement " ++ config.name ++ " functionality\n"

-- createConfigFiles, cfstudio.yaml (lines 250-264).
def cfstudioYaml (config : RepoConfig) : String :=
  "project:\n" ++
  "  name: " ++ config.name ++ "\n" ++
  "  version: 0.1.0\n" ++
  "  description: " ++ config.description ++ "\n" ++
  "\n" ++
  "plugins:\n" ++
  "  - name: '@cloudflare-studio/plugin-cloudflare'\n" ++
  "  - name: '@cloudflare-studio/plugin-github'\n" ++
  "\n" ++
  "resources:\n" ++
  "  # Define resources managed by this project\n" ++
  "\n" ++
  "workflows:\n" ++
  "  # Define automation workflows\n"

-- createConfigFiles, minimal usage README (lines 268-278).
def usageReadme (config : RepoConfig) : String :=
  "# " ++ config.name ++ "\n" ++
  "\n" ++
  config.description ++ "\n" ++
  "\n" ++
  "## Usage\n" ++
  "\n" ++
  "```bash\n" ++
  "cfstudio validate\n" ++
  "cfstudio deploy\n" ++
  "```\n"

-- createGitignore (lines 284-310).
def gitignoreText : String :=
  "# Dependencies\n" ++
  "node_modules/\n" ++
  "dist/\n" ++
  "*.log\n" ++
  "\n" ++
  "# Environment\n" ++
  ".env\n" ++
  ".env.local\n" ++
  ".env.*.local\n" ++
  "\n" ++
  "# IDE\n" ++
  ".vscode/\n" ++
  ".idea/\n" ++
  "\n" ++
  "# OS\n" ++
  ".DS_Store\n" ++
  "Thumbs.db\n" ++
  "\n" ++
  "# Build\n" ++
  "*.tsbuildinfo\n" ++
  "coverage/\n" ++
  ".turbo/\n" ++
  "\n" ++
  "# Private\n" ++
  "*.private\n" ++
  "*.secret\n"

-- createGitHubActions, ci.yml (lines 319-355); the per-category job steps
-- are the interpolated ternary at line 346.
def ciWorkflow (config : RepoConfig) : String :=
  "name: CI\n" ++
  "\n" ++
  "on:\n" ++
  "  push:\n" ++
  "    branches: [main]\n" ++
  "  pull_request:\n" ++
  "    branches: [main]\n" ++
  "\n" ++
  "jobs:\n" ++
  "  test:\n" ++
  "    runs-on: ubuntu-latest\n" ++
  "    \n" ++
  "    steps:\n" ++
  "      - uses: actions/checkout@v4\n" ++
  "      \n" ++
  "      - uses: pnpm/action-setup@v2\n" ++
  "        with:\n" ++
  "          version: 8\n" ++
  "          \n" ++
  "      - uses: actions/setup-node@v4\n" ++
  "        with:\n" ++
  "          node-version: 20\n" ++
  "          cache: 'pnpm'\n" ++
  "          \n" ++
  "      - name: Install dependencies\n" ++
  "        run: pnpm install\n" ++
  "        \n" ++
  "      " ++
  (if config.type ≠ .config then
    "- name: Type check\n" ++
    "        run: pnpm typecheck\n" ++
    "        \n" ++
    "      - name: Run tests\n" ++
    "        run: pnpm test\n" ++
    "        \n" ++
    "      - name: Build\n" ++
    "        run: pnpm build"
  else
    "- name: Validate\n" ++
    "        run: pnpm validate") ++
  "\n"

-- createReadme (lines 360-416): the general README, assembled from
-- category- and visibility-conditional text blocks.
def readmeText (config : RepoConfig) : String :=
  "# " ++ config.name ++ "\n" ++
  "\n" ++
  config.description ++ "\n" ++
  "\n" ++
  (if config.isPrivate then
    "**⚠️ This is a private repository for Cloudflare Studio internal use only.**\n"
  else "") ++
  "\n" ++
  "## Overview\n" ++
  "\n" ++
  (if config.type = .plugin then
    "This is a " ++ (if config.isPrivate then "premium" else "standard") ++
    " plugin for Cloudflare Studio."
  else "") ++ "\n" ++
  (if config.type = .app then
    "This application is part of the Cloudflare Studio platform."
  else "") ++ "\n" ++
  (if config.type = .library then
    "This library provides shared functionality for Cloudflare Studio."
  else "") ++ "\n" ++
  (if config.type = .config then
    "This repository contains configuration and workflows for Cloudflare Studio operations."
  else "") ++ "\n" ++
  "\n" ++
  "## Installation\n" ++
  "\n" ++
  (if config.type ≠ .config then
    "```bash\npnpm add " ++ config.name ++ "\n```"
  else
    "```bash\ncfstudio validate\n```") ++
  "\n" ++
  "\n" ++
  "## Usage\n" ++
  "\n" ++
  (if config.type = .plugin then
    "```typescript\nimport " ++ pascalName config.name ++ " from '" ++ config.name ++ "'\n" ++
    "\n" ++
    "// Use in your cfstudio.yaml\n" ++
    "plugins:\n" ++
    "  - name: '" ++ config.name ++ "'\n" ++
    "```"
  else "") ++
  "\n" ++
  "\n" ++
  (if config.type = .app then
    "```bash\npnpm dev  # Development\npnpm build # Production build\n```"
  else "") ++
  "\n" ++
  "\n" ++
  "## Development\n" ++
  "\n" ++
  "```bash\n" ++
  "# Install dependencies\n" ++
  "pnpm install\n" ++
  "\n" ++
  (if config.type ≠ .config then
    "# Run tests\npnpm test\n\n# Build\npnpm build"
  else
    "# Validate configuration\npnpm validate") ++
  "\n" ++
  "```\n" ++
  "\n" ++
  "## License\n" ++
  "\n" ++
  (if config.isPrivate then "Proprietary - Cloudflare Studio Internal" else "MIT") ++
  "\n"

-- ### Step model and interpreter
-- A program is a list of primitive steps; the interpreter threads a
-- filesystem state and a failure oracle.  `command` is a call through
-- runCommand (lines 86-94): echoed, and on failure logged and rethrown.
-- `ghCreate` is the one runCommand call the script wraps in try/catch
-- (lines 458-466): on failure the error is reduced to a warning line and
-- execution continues; on success a success line is printed.

inductive FileContent
  | text (s : String)
  | packageJson (p : PackageJson)
  | tsconfigJson (t : TsConfig)
deriving DecidableEq

inductive PStep
  | log (msg : String)
  | mkdirp (path : String)
  | writeFile (path : String) (content : FileContent)
  | command (cmd : String) (cwd : String)
  | ghCreate (cmd : String) (cwd : String)
deriving DecidableEq

-- Filesystem: directories created so far and files with their contents.
-- A write to an existing path replaces its content (fs.writeFile semantics).
structure FS where
  dirs : List String
  files : List (String × FileContent)
deriving DecidableEq

def emptyFS : FS := { dirs := [], files := [] }

-- fs.access succeeds when an entry exists at the path (line 425).
def dirExists (fs : FS) (p : String) : Bool :=
  fs.dirs.contains p || fs.files.any (fun f => f.1 == p)

def mkdirFS (fs : FS) (p : String) : FS :=
  { fs with dirs := if fs.dirs.contains p then fs.dirs else p :: fs.dirs }

def writeFS (fs : FS) (p : String) (c : FileContent) : FS :=
  { fs with files := (p, c) :: fs.files.filter (fun f => f.1 != p) }

structure RunResult where
  fs : FS
  trace : List PStep
  ok : Bool
deriving DecidableEq

-- The interpreter.  The trace records console lines (`log`) and the
-- effects that actually happened; an unguarded failure stops execution
-- with ok = false (the exception propagates), a guarded gh failure logs
-- the runCommand error line plus the catch-block warning and continues.
def runProg (fails : PStep → Bool) : FS → List PStep → RunResult
  | fs, [] => ⟨fs, [], true⟩
  | fs, .log m :: rest =>
    let r := runProg fails fs rest
    ⟨r.fs, .log m :: r.trace, r.ok⟩
  | fs, .mkdirp p :: rest =>
    if fails (.mkdirp p) then ⟨fs, [], false⟩
    else
      let r := runProg fails (mkdirFS fs p) rest
      ⟨r.fs, .mkdirp p :: r.trace, r.ok⟩
  | fs, .writeFile p c :: rest =>
    if fails (.writeFile p c) then ⟨fs, [], false⟩
    else
      let r := runProg fails (writeFS fs p c) rest
      ⟨r.fs, .writeFile p c :: r.trace, r.ok⟩
  | fs, .command c w :: rest =>
    if fails (.command c w) then
      ⟨fs, [.log ("  $ " ++ c), .log ("  ❌ Command failed: " ++ c)], false⟩
    else
      let r := runProg fails fs rest
      ⟨r.fs, .log ("  $ " ++ c) :: .command c w :: r.trace, r.ok⟩
  | fs, .ghCreate c w :: rest =>
    if fails (.ghCreate c w) then
      let r := runProg fails fs rest
      ⟨r.fs, .log ("  $ " ++ c) :: .log ("  ❌ Command failed: " ++ c) ::
             .log "  ⚠️  Could not create GitHub repo (may already exist)" :: r.trace, r.ok⟩
    else
      let r := runProg fails fs rest
      ⟨r.fs, .log ("  $ " ++ c) :: .command c w ::
             .log "  ✅ Created and pushed to GitHub" :: r.trace, r.ok⟩

def noFailure : PStep → Bool := fun _ => false

-- ### The program of each script function, as step lists

def pathJoin (a b : String) : String := a ++ "/" ++ b

def repoPath (config : RepoConfig) : String := pathJoin BASE_DIR config.name

def srcIndexPath (config : RepoConfig) : String :=
  pathJoin (pathJoin (repoPath config) "src") "index.ts"

def readmePath (config : RepoConfig) : String :=
  pathJoin (repoPath config) "README.md"

def createPackageJsonSteps (config : RepoConfig) : List PStep :=
  [.writeFile (pathJoin (repoPath config) "package.json")
    (.packageJson (createPackageJson config))]

def createTsConfigSteps (config : RepoConfig) : List PStep :=
  [.writeFile (pathJoin (repoPath config) "tsconfig.json") (.tsconfigJson tsconfigObject)]

-- createSourceFiles (lines 175-245): always creates src/, then writes the
-- one stub whose shape depends on the category; the docs (and config)
-- categories match none of the three branches and write nothing.
def createSourceFilesSteps (config : RepoConfig) : List PStep :=
  .mkdirp (pathJoin (repoPath config) "src") ::
  (match config.type with
   | .plugin => [.writeFile (srcIndexPath config) (.text (pluginCode config))]
   | .app => [.writeFile (srcIndexPath config) (.text (appCode config))]
   | .library => [.writeFile (srcIndexPath config) (.text (libCode config))]
   | _ => [])

def createConfigFilesSteps (config : RepoConfig) : List PStep :=
  if config.type = .config then
    [.writeFile (pathJoin (repoPath config) "cfstudio.yaml") (.text (cfstudioYaml config)),
     .writeFile (readmePath config) (.text (usageReadme config))]
  else []

def createGitignoreSteps (config : RepoConfig) : List PStep :=
  [.writeFile (pathJoin (repoPath config) ".gitignore") (.text gitignoreText)]

def createGitHubActionsSteps (config : RepoConfig) : List PStep :=
  [.mkdirp (pathJoin (pathJoin (repoPath config) ".github") "workflows"),
   .writeFile (pathJoin (pathJoin (pathJoin (repoPath config) ".github") "workflows") "ci.yml")
     (.text (ciWorkflow config))]

def createReadmeSteps (config : RepoConfig) : List PStep :=
  [.writeFile (readmePath config) (.text (readmeText config))]

-- Line 454: template literal, so \n\n is a real blank line in the message.
def gitCommitCmd (config : RepoConfig) : String :=
  "git commit -m \"feat: initial setup for " ++ config.name ++ "\n\n" ++
  config.description ++ "\""

-- Lines 457-461.
def ghRepoCreateCmd (config : RepoConfig) : String :=
  "gh repo create cloudflare-studio/" ++ config.name ++ " " ++
  (if config.isPrivate then "--private" else "--public") ++
  " --description \"" ++ config.description ++ "\" --push --source ."

-- initializeRepo (lines 418-467), given whether fs.access found the
-- target path (`ex`): skip entirely, or create and populate.
def initializeRepoProg (ex : Bool) (config : RepoConfig) : List PStep :=
  .log ("\n📦 Creating " ++ config.name ++ "...") ::
  (if ex then
    [.log "  ⚠️  Directory already exists, skipping..."]
  else
    [.mkdirp (repoPath config),
     .command "git init" (repoPath config)] ++
    (if config.type ≠ .config then
      createPackageJsonSteps config ++ createTsConfigSteps config ++
      createSourceFilesSteps config
    else
      createConfigFilesSteps config) ++
    createGitignoreSteps config ++
    createGitHubActionsSteps config ++
    createReadmeSteps config ++
    [.command "git add ." (repoPath config),
     .command (gitCommitCmd config) (repoPath config),
     .ghCreate (ghRepoCreateCmd config) (repoPath config)])

def initializeRepo (fails : PStep → Bool) (fs : FS) (config : RepoConfig) : RunResult :=
  runProg fails fs (initializeRepoProg (dirExists fs (repoPath config)) config)

-- One descriptor run from an empty filesystem with nothing failing.
def freshRun (config : RepoConfig) : RunResult :=
  initializeRepo noFailure emptyFS config

-- The for-loop of main (lines 472-474): an uncaught failure aborts the
-- remaining descriptors (caught only by the top-level main().catch).
def mainLoop (fails : PStep → Bool) : FS → List RepoConfig → RunResult
  | fs, [] => ⟨fs, [], true⟩
  | fs, config :: rest =>
    let r := initializeRepo fails fs config
    if r.ok then
      let r2 := mainLoop fails r.fs rest
      ⟨r2.fs, r.trace ++ r2.trace, r2.ok⟩
    else
      ⟨r.fs, r.trace, false⟩

-- The summary reporter (lines 476-485): a pure read of REPOS_TO_CREATE.
def summaryLine (r : RepoConfig) : PStep :=
  .log ("  - " ++ r.name ++ ": " ++ r.description)

def publicSummaryLines : List PStep :=
  (REPOS_TO_CREATE.filter (fun r => !r.isPrivate)).map summaryLine

def privateSummaryLines : List PStep :=
  (REPOS_TO_CREATE.filter (fun r => r.isPrivate)).map summaryLine

def summarySteps : List PStep :=
  [.log "\n✨ All repositories initialized!",
   .log "\n📊 Repository Summary:",
   .log "\nPublic (Open Source):"] ++
  publicSummaryLines ++
  [.log "\nPrivate (Business):"] ++
  privateSummaryLines

-- main (lines 469-486): the summary only runs when the loop completed;
-- otherwise the exception escapes to main().catch(console.error).
def mainRun (fails : PStep → Bool) (fs : FS) : RunResult :=
  let r := mainLoop fails fs REPOS_TO_CREATE
  ⟨r.fs,
   .log "🚀 Initializing missing Cloudflare Studio repositories...\n" ::
     (r.trace ++ (if r.ok then summarySteps else [])),
   r.ok⟩

-- ### Claim-specific helper predicates

def writesTo (p : String) (s : PStep) : Bool :=
  match s with
  | .writeFile q _ => q == p
  | _ => false

def stubWrites (config : RepoConfig) (tr : List PStep) : List PStep :=
  tr.filter (writesTo (srcIndexPath config))

-- Failure oracle that fails exactly the guarded gh-create step.
def ghAlwaysFails : PStep → Bool :=
  fun s => match s with
  | .ghCreate _ _ => true
  | _ => false

-- Failure oracle that fails the `git init` command of the billing
-- descriptor and nothing else.
def failGitInitBilling : PStep → Bool :=
  fun s => match s with
  | .command c w => c == "git init" && w == repoPath billingRepo
  | _ => false

-- A failure oracle that only ever fails the guarded gh-create step.
def ghOnly (fails : PStep → Bool) : Prop :=
  ∀ s, fails s = true → ∃ c w, s = PStep.ghCreate c w

-- ### Helper lemmas

theorem mkdirFS_mem_self (fs : FS) (p : String) :
    p ∈ (mkdirFS fs p).dirs := by
  unfold mkdirFS
  by_cases h : fs.dirs.contains p = true
  · simp only [h, if_true]
    simpa using h
  · simp only [h, if_false]
    exact List.mem_cons_self _ _

theorem mkdirFS_mem_mono (fs : FS) (q p : String) (h : p ∈ fs.dirs) :
    p ∈ (mkdirFS fs q).dirs := by
  unfold mkdirFS
  by_cases hq : fs.dirs.contains q = true
  · simp only [hq, if_true]; exact h
  · simp only [hq, if_false]
    exact List.mem_cons_of_mem _ h

theorem runProg_dirs_mono (fails : PStep → Bool) (p : String) :
    ∀ (prog : List PStep) (fs : FS), p ∈ fs.dirs →
      p ∈ (runProg fails fs prog).fs.dirs := by
  intro prog
  induction prog with
  | nil => intro fs h; simpa [runProg] using h
  | cons s rest ih =>
    intro fs h
    cases s with
    | log m => simpa [runProg] using ih fs h
    | mkdirp q =>
      by_cases hf : fails (.mkdirp q) = true
      · simp [runProg, hf]; exact h
      · simp [runProg, hf]; exact ih _ (mkdirFS_mem_mono fs q p h)
    | writeFile q c =>
      by_cases hf : fails (.writeFile q c) = true
      · simp [runProg, hf]; exact h
      · simp [runProg, hf]; exact ih _ h
    | command c w =>
      by_cases hf : fails (.command c w) = true
      · simp [runProg, hf]; exact h
      · simp [runProg, hf]; exact ih _ h
    | ghCreate c w =>
      by_cases hf : fails (.ghCreate c w) = true
      · simp [runProg, hf]; exact ih _ h
      · simp [runProg, hf]; exact ih _ h

-- Skipping: when the target path exists, the run is two console lines and
-- nothing else (no writes, no commands, filesystem unchanged).
theorem initializeRepo_skip (fails : PStep → Bool) (fs : FS) (config : RepoConfig)
    (h : dirExists fs (repoPath config) = true) :
    initializeRepo fails fs config =
      ⟨fs, [.log ("\n📦 Creating " ++ config.name ++ "..."),
            .log "  ⚠️  Directory already exists, skipping..."], true⟩ := by
  unfold initializeRepo
  rw [h]
  simp [initializeRepoProg, runProg]

theorem initializeRepo_creates_dir (fs : FS) (config : RepoConfig)
    (h : dirExists fs (repoPath config) = false) :
    dirExists (initializeRepo noFailure fs config).fs (repoPath config) = true := by
  have key : repoPath config ∈ (initializeRepo noFailure fs config).fs.dirs := by
    unfold initializeRepo
    rw [h]
    simp only [initializeRepoProg, Bool.false_eq_true, if_false, List.cons_append]
    simp only [runProg, noFailure, Bool.false_eq_true, if_false]
    exact runProg_dirs_mono noFailure (repoPath config) _ _
      (mkdirFS_mem_self fs (repoPath config))
  simp [dirExists]
  exact Or.inl key

theorem runProg_ok_of_ghOnly (fails : PStep → Bool) (hg : ghOnly fails) :
    ∀ (prog : List PStep) (fs : FS), (runProg fails fs prog).ok = true := by
  intro prog
  induction prog with
  | nil => intro fs; rfl
  | cons s rest ih =>
    intro fs
    cases s with
    | log m => simpa [runProg] using ih fs
    | mkdirp p =>
      have hf : fails (.mkdirp p) = false := by
        cases hfe : fails (.mkdirp p)
        · rfl
        · obtain ⟨c, w, hc⟩ := hg _ hfe; exact PStep.noConfusion hc
      simp [runProg, hf]; exact ih _
    | writeFile p c =>
      have hf : fails (.writeFile p c) = false := by
        cases hfe : fails (.writeFile p c)
        · rfl
        · obtain ⟨c', w', hc⟩ := hg _ hfe; exact PStep.noConfusion hc
      simp [runProg, hf]; exact ih _
    | command c w =>
      have hf : fails (.command c w) = false := by
        cases hfe : fails (.command c w)
        · rfl
        · obtain ⟨c', w', hc⟩ := hg _ hfe; exact PStep.noConfusion hc
      simp [runProg, hf]; exact ih _
    | ghCreate c w =>
      by_cases hf : fails (.ghCreate c w) = true
      · simp [runProg, hf]; exact ih _
      · simp [runProg, hf]; exact ih _

theorem initializeRepo_creating_mem (fails : PStep → Bool) (fs : FS) (config : RepoConfig) :
    PStep.log ("\n📦 Creating " ++ config.name ++ "...") ∈ (initializeRepo fails fs config).trace := by
  unfold initializeRepo initializeRepoProg
  simp [runProg]

theorem mainLoop_ok_of_ghOnly (fails : PStep → Bool) (hg : ghOnly fails) :
    ∀ (cfgs : List RepoConfig) (fs : FS), (mainLoop fails fs cfgs).ok = true := by
  intro cfgs
  induction cfgs with
  | nil => intro fs; rfl
  | cons c rest ih =>
    intro fs
    have h1 : (initializeRepo fails fs c).ok = true := runProg_ok_of_ghOnly fails hg _ _
    simp [mainLoop, h1]
    exact ih _

theorem mainLoop_creating_mem (fails : PStep → Bool) (hg : ghOnly fails) :
    ∀ (cfgs : List RepoConfig) (fs : FS) (r : RepoConfig), r ∈ cfgs →
      PStep.log ("\n📦 Creating " ++ r.name ++ "...") ∈ (mainLoop fails fs cfgs).trace := by
  intro cfgs
  induction cfgs with
  | nil => intro fs r hr; cases hr
  | cons c rest ih =>
    intro fs r hr
    have h1 : (initializeRepo fails fs c).ok = true := runProg_ok_of_ghOnly fails hg _ _
    simp only [mainLoop, h1, if_true]
    rcases List.mem_cons.mp hr with hEq | hr'
    · subst hEq
      exact List.mem_append.mpr (Or.inl (initializeRepo_creating_mem fails fs r))
    · exact List.mem_append.mpr (Or.inr (ih _ r hr'))

-- ### Claim theorems

set_option maxRecDepth 100000

/-- C1 counterexample: the claim quantifies over every descriptor whose
category is not "configuration", but for the docs-category descriptor
`.claude` the generator creates the src directory and writes no stub
source file at all: the number of writes to src/index.ts in a fresh run
is 0, not exactly one. -/
theorem c1_as_stated_false :
    dotClaudeRepo ∈ REPOS_TO_CREATE ∧
    dotClaudeRepo.type ≠ RepoType.config ∧
    (stubWrites dotClaudeRepo (freshRun dotClaudeRepo).trace).length = 0 ∧
    ¬ (stubWrites dotClaudeRepo (freshRun dotClaudeRepo).trace).length = 1 := by
  decide

/-- C1 (amended): for every descriptor of the constant list whose category
is plugin, application or library, a fresh run writes exactly one stub
source file src/index.ts whose shape depends on the category (plugin: a
class implementing the Plugin capability interface; application: an entry
function guarded by a run-only-when-invoked-directly check; library: a
version constant and a greeting function); for the docs category the src
directory is created but no stub source file is written. -/
theorem c1_stub_files :
    ∀ r ∈ REPOS_TO_CREATE,
      (r.type = RepoType.plugin →
        stubWrites r (freshRun r).trace =
          [.writeFile (srcIndexPath r) (.text (pluginCode r))] ∧
        strContainsSub (pluginCode r) "implements Plugin" = true ∧
        strContainsSub (pluginCode r) "export class " = true) ∧
      (r.type = RepoType.app →
        stubWrites r (freshRun r).trace =
          [.writeFile (srcIndexPath r) (.text (appCode r))] ∧
        strContainsSub (appCode r) "export async function main()" = true ∧
        strContainsSub (appCode r) "// Run if called directly" = true ∧
        strContainsSub (appCode r)
          "if (import.meta.url === `file://$\x7bprocess.argv[1]\x7d`)" = true) ∧
      (r.type = RepoType.library →
        stubWrites r (freshRun r).trace =
          [.writeFile (srcIndexPath r) (.text (libCode r))] ∧
        strContainsSub (libCode r) "export const version = '0.1.0'" = true ∧
        strContainsSub (libCode r) "export function hello()" = true) ∧
      (r.type = RepoType.docs →
        stubWrites r (freshRun r).trace = [] ∧
        PStep.mkdirp (pathJoin (repoPath r) "src") ∈ (freshRun r).trace) := by
  decide

/-- Witness for c1_stub_files at the plugin descriptor plugin-ai. -/
theorem c1_stub_files_witness :
    pluginAiRepo ∈ REPOS_TO_CREATE ∧
    (stubWrites pluginAiRepo (freshRun pluginAiRepo).trace =
      [.writeFile (srcIndexPath pluginAiRepo) (.text (pluginCode pluginAiRepo))] ∧
     strContainsSub (pluginCode pluginAiRepo) "implements Plugin" = true ∧
     strContainsSub (pluginCode pluginAiRepo) "export class " = true) :=
  ⟨by decide, (c1_stub_files pluginAiRepo (by decide)).1 rfl⟩

/-- C2 counterexample: for the configuration descriptor `infrastructure`,
the minimal usage README and the general README are both written to the
same path README.md, so after a fresh run completes the usage README is
not among the filesystem contents; only the general README exists at that
path.  The two do not exist as separate artifacts. -/
theorem c2_as_stated_false :
    infrastructureRepo ∈ REPOS_TO_CREATE ∧
    infrastructureRepo.type = RepoType.config ∧
    FileContent.text (usageReadme infrastructureRepo) ∉
      (freshRun infrastructureRepo).fs.files.map (fun f => f.2) ∧
    ((freshRun infrastructureRepo).fs.files.filter
        (fun f => f.1 == readmePath infrastructureRepo)).map (fun f => f.2) =
      [FileContent.text (readmeText infrastructureRepo)] := by
  decide

/-- C2 (amended): for every configuration descriptor of the constant list,
a fresh run first writes the minimal usage README and later the general
README, both to the same path README.md; the two contents are distinct,
and after processing completes only the general README (the later write)
exists at that path. -/
theorem c2_usage_readme :
    ∀ r ∈ REPOS_TO_CREATE, r.type = RepoType.config →
      (freshRun r).trace.filter (writesTo (readmePath r)) =
        [.writeFile (readmePath r) (.text (usageReadme r)),
         .writeFile (readmePath r) (.text (readmeText r))] ∧
      usageReadme r ≠ readmeText r ∧
      ((freshRun r).fs.files.filter (fun f => f.1 == readmePath r)).map (fun f => f.2) =
        [FileContent.text (readmeText r)] := by
  decide

/-- Witness for c2_usage_readme at the configuration descriptor runbooks. -/
theorem c2_usage_readme_witness :
    runbooksRepo ∈ REPOS_TO_CREATE ∧ runbooksRepo.type = RepoType.config ∧
    ((freshRun runbooksRepo).trace.filter (writesTo (readmePath runbooksRepo)) =
        [.writeFile (readmePath runbooksRepo) (.text (usageReadme runbooksRepo)),
         .writeFile (readmePath runbooksRepo) (.text (readmeText runbooksRepo))] ∧
     usageReadme runbooksRepo ≠ readmeText runbooksRepo ∧
     ((freshRun runbooksRepo).fs.files.filter
        (fun f => f.1 == readmePath runbooksRepo)).map (fun f => f.2) =
       [FileContent.text (readmeText runbooksRepo)]) :=
  ⟨by decide, rfl, c2_usage_readme runbooksRepo (by decide) rfl⟩

/-- C3: when the computed target path already exists, processing a
descriptor performs no filesystem writes and runs no external commands —
the result is the unchanged filesystem and a trace of exactly two console
lines (the header and the skip notice); consequently, re-running a
descriptor right after a successful fresh run (which creates the target
directory) is idempotent: the second run performs no writes. -/
theorem c3_skip_idempotent :
    (∀ (fails : PStep → Bool) (fs : FS) (config : RepoConfig),
        dirExists fs (repoPath config) = true →
        initializeRepo fails fs config =
          ⟨fs, [.log ("\n📦 Creating " ++ config.name ++ "..."),
                .log "  ⚠️  Directory already exists, skipping..."], true⟩) ∧
    (∀ (fails2 : PStep → Bool) (fs : FS) (config : RepoConfig),
        dirExists fs (repoPath config) = false →
        initializeRepo fails2 (initializeRepo noFailure fs config).fs config =
          ⟨(initializeRepo noFailure fs config).fs,
           [.log ("\n📦 Creating " ++ config.name ++ "..."),
            .log "  ⚠️  Directory already exists, skipping..."], true⟩) := by
  constructor
  · exact initializeRepo_skip
  · intro fails2 fs config h
    exact initializeRepo_skip fails2 _ config (initializeRepo_creates_dir fs config h)

/-- Witness for c3_skip_idempotent: a filesystem already holding the
claude-docs target path is left untouched and only the skip notice is
logged. -/
theorem c3_skip_idempotent_witness :
    dirExists { dirs := [repoPath claudeDocsRepo], files := [] } (repoPath claudeDocsRepo) = true ∧
    initializeRepo noFailure { dirs := [repoPath claudeDocsRepo], files := [] } claudeDocsRepo =
      ⟨{ dirs := [repoPath claudeDocsRepo], files := [] },
       [.log ("\n📦 Creating " ++ claudeDocsRepo.name ++ "..."),
        .log "  ⚠️  Directory already exists, skipping..."], true⟩ :=
  ⟨by decide,
   c3_skip_idempotent.1 noFailure { dirs := [repoPath claudeDocsRepo], files := [] }
     claudeDocsRepo (by decide)⟩

/-- C4: for every descriptor with a dependency list, the generated
manifest's dependency map sends each identifier starting with the
organization namespace "@cloudflare-studio/" to "workspace:*" and every
other identifier to "latest", pairing each identifier in order. -/
theorem c4_dependency_resolution :
    ∀ (config : RepoConfig) (deps : List String),
      config.dependencies = some deps →
      (createPackageJson config).dependencies =
        some (deps.map (fun dep =>
          (dep, if strStartsWith dep "@cloudflare-studio/" then "workspace:*" else "latest"))) ∧
      ∀ d ∈ deps, ∃ v,
        (d, v) ∈ ((createPackageJson config).dependencies.getD []) ∧
        (strStartsWith d "@cloudflare-studio/" = true → v = "workspace:*") ∧
        (strStartsWith d "@cloudflare-studio/" = false → v = "latest") := by
  intro config deps h
  have hd : (createPackageJson config).dependencies =
      some (deps.map (fun dep =>
        (dep, if strStartsWith dep "@cloudflare-studio/" then "workspace:*" else "latest"))) := by
    simp [createPackageJson, h]
  refine ⟨hd, ?_⟩
  intro d hdmem
  refine ⟨if strStartsWith d "@cloudflare-studio/" then "workspace:*" else "latest", ?_, ?_, ?_⟩
  · rw [hd]
    simpa using List.mem_map_of_mem
      (fun dep => (dep, if strStartsWith dep "@cloudflare-studio/" then "workspace:*" else "latest"))
      hdmem
  · intro hs; simp [hs]
  · intro hs; simp [hs]

/-- Witness for c4_dependency_resolution at the billing descriptor, whose
dependency list mixes an external and an organization-namespaced
identifier. -/
theorem c4_dependency_resolution_witness :
    billingRepo.dependencies = some ["stripe", "@cloudflare-studio/runtime"] ∧
    (createPackageJson billingRepo).dependencies =
      some ([("stripe", "latest"), ("@cloudflare-studio/runtime", "workspace:*")]) :=
  ⟨rfl, by
    have h := (c4_dependency_resolution billingRepo ["stripe", "@cloudflare-studio/runtime"] rfl).1
    rw [h]
    decide⟩

/-- C5: per descriptor, the README license line is "Proprietary -
Cloudflare Studio Internal" and the gh invocation uses --private when
isPrivate is true, and MIT with --public when isPrivate is false; the
fresh-run program writes exactly this README and invokes exactly this gh
command. -/
theorem c5_visibility :
    ∀ r ∈ REPOS_TO_CREATE,
      PStep.ghCreate (ghRepoCreateCmd r) (repoPath r) ∈ initializeRepoProg false r ∧
      PStep.writeFile (readmePath r) (.text (readmeText r)) ∈ initializeRepoProg false r ∧
      (r.isPrivate = true →
        strEndsWith (readmeText r) "## License\n\nProprietary - Cloudflare Studio Internal\n" = true ∧
        strContainsSub (ghRepoCreateCmd r) " --private " = true ∧
        strContainsSub (ghRepoCreateCmd r) " --public " = false) ∧
      (r.isPrivate = false →
        strEndsWith (readmeText r) "## License\n\nMIT\n" = true ∧
        strContainsSub (ghRepoCreateCmd r) " --public " = true ∧
        strContainsSub (ghRepoCreateCmd r) " --private " = false) := by
  decide

/-- Witness for c5_visibility at the private descriptor billing. -/
theorem c5_visibility_witness :
    billingRepo ∈ REPOS_TO_CREATE ∧ billingRepo.isPrivate = true ∧
    (strEndsWith (readmeText billingRepo)
        "## License\n\nProprietary - Cloudflare Studio Internal\n" = true ∧
     strContainsSub (ghRepoCreateCmd billingRepo) " --private " = true ∧
     strContainsSub (ghRepoCreateCmd billingRepo) " --public " = false) :=
  ⟨by decide, rfl, (c5_visibility billingRepo (by decide)).2.2.1 rfl⟩

/-- C6: for every configuration descriptor of the constant list, a fresh
run writes the declarative cfstudio.yaml file and the usage README, and
writes no package manifest, no compiler-configuration file and no src
stub source file. -/
theorem c6_config_artifacts :
    ∀ r ∈ REPOS_TO_CREATE, r.type = RepoType.config →
      (freshRun r).trace.filter (writesTo (pathJoin (repoPath r) "cfstudio.yaml")) =
        [.writeFile (pathJoin (repoPath r) "cfstudio.yaml") (.text (cfstudioYaml r))] ∧
      PStep.writeFile (readmePath r) (.text (usageReadme r)) ∈ (freshRun r).trace ∧
      (freshRun r).trace.filter (writesTo (pathJoin (repoPath r) "package.json")) = [] ∧
      (freshRun r).trace.filter (writesTo (pathJoin (repoPath r) "tsconfig.json")) = [] ∧
      stubWrites r (freshRun r).trace = [] := by
  decide

/-- Witness for c6_config_artifacts at the configuration descriptor
infrastructure. -/
theorem c6_config_artifacts_witness :
    infrastructureRepo ∈ REPOS_TO_CREATE ∧ infrastructureRepo.type = RepoType.config ∧
    ((freshRun infrastructureRepo).trace.filter
        (writesTo (pathJoin (repoPath infrastructureRepo) "cfstudio.yaml")) =
      [.writeFile (pathJoin (repoPath infrastructureRepo) "cfstudio.yaml")
        (.text (cfstudioYaml infrastructureRepo))] ∧
     PStep.writeFile (readmePath infrastructureRepo)
        (.text (usageReadme infrastructureRepo)) ∈ (freshRun infrastructureRepo).trace ∧
     (freshRun infrastructureRepo).trace.filter
        (writesTo (pathJoin (repoPath infrastructureRepo) "package.json")) = [] ∧
     (freshRun infrastructureRepo).trace.filter
        (writesTo (pathJoin (repoPath infrastructureRepo) "tsconfig.json")) = [] ∧
     stubWrites infrastructureRepo (freshRun infrastructureRepo).trace = []) :=
  ⟨by decide, rfl, c6_config_artifacts infrastructureRepo (by decide) rfl⟩

/-- C7: failures of the guarded gh repo-create step are isolated: under
any oracle that only fails gh-create steps the whole loop completes and
every descriptor is reached, and under the oracle that fails every
gh-create step the loop still completes while logging the
"may already exist" warning; whereas an unguarded failure (directory
creation, file write, git command) aborts the run: the summary is not
printed, the trace and filesystem are left exactly as the loop left them
(no rollback), and — concretely, failing `git init` of the billing
descriptor — the earlier descriptors' files remain on disk, billing's
directory remains created, and the next descriptor (analytics) is never
reached. -/
theorem c7_error_isolation :
    (∀ (fails : PStep → Bool) (fs : FS), ghOnly fails →
        (mainLoop fails fs REPOS_TO_CREATE).ok = true ∧
        ∀ r ∈ REPOS_TO_CREATE,
          PStep.log ("\n📦 Creating " ++ r.name ++ "...") ∈
            (mainLoop fails fs REPOS_TO_CREATE).trace) ∧
    ((mainLoop ghAlwaysFails emptyFS REPOS_TO_CREATE).ok = true ∧
     PStep.log "  ⚠️  Could not create GitHub repo (may already exist)" ∈
       (mainLoop ghAlwaysFails emptyFS REPOS_TO_CREATE).trace) ∧
    (∀ (fails : PStep → Bool) (fs : FS),
        (mainLoop fails fs REPOS_TO_CREATE).ok = false →
        (mainRun fails fs).trace =
          PStep.log "🚀 Initializing missing Cloudflare Studio repositories...\n" ::
            (mainLoop fails fs REPOS_TO_CREATE).trace ∧
        (mainRun fails fs).fs = (mainLoop fails fs REPOS_TO_CREATE).fs) ∧
    ((mainRun failGitInitBilling emptyFS).ok = false ∧
     repoPath claudeDocsRepo ∈ (mainRun failGitInitBilling emptyFS).fs.dirs ∧
     repoPath billingRepo ∈ (mainRun failGitInitBilling emptyFS).fs.dirs ∧
     ((mainRun failGitInitBilling emptyFS).fs.files.filter
        (fun f => f.1 == readmePath claudeDocsRepo)).length = 1 ∧
     PStep.log ("\n📦 Creating " ++ analyticsRepo.name ++ "...") ∉
       (mainRun failGitInitBilling emptyFS).trace ∧
     PStep.log "\n📊 Repository Summary:" ∉ (mainRun failGitInitBilling emptyFS).trace) := by
  refine ⟨?_, by decide, ?_, by decide⟩
  · intro fails fs hg
    refine ⟨mainLoop_ok_of_ghOnly fails hg _ _, ?_⟩
    intro r hr
    exact mainLoop_creating_mem fails hg _ fs r hr
  · intro fails fs h
    constructor
    · simp [mainRun, h]
    · rfl

/-- Witness for c7_error_isolation: the never-failing oracle only fails
gh-create steps (vacuously), so the loop completes. -/
theorem c7_error_isolation_witness :
    ghOnly noFailure ∧ (mainLoop noFailure emptyFS REPOS_TO_CREATE).ok = true :=
  ⟨(fun _ h => nomatch h),
   (c7_error_isolation.1 noFailure emptyFS (fun _ h => nomatch h)).1⟩

/-- C8: whenever the loop over the descriptor list completes, main prints
the summary after the loop trace; the summary's public grouping contains
the name/description line of exactly the descriptors with isPrivate =
false and the private grouping exactly those with isPrivate = true (2 and
7 entries respectively), computed purely from the constant list and hence
independent of what any run did. -/
theorem c8_summary_partition :
    (∀ (fails : PStep → Bool) (fs : FS),
        (mainLoop fails fs REPOS_TO_CREATE).ok = true →
        (mainRun fails fs).trace =
          PStep.log "🚀 Initializing missing Cloudflare Studio repositories...\n" ::
            ((mainLoop fails fs REPOS_TO_CREATE).trace ++ summarySteps)) ∧
    (∀ r ∈ REPOS_TO_CREATE,
        (summaryLine r ∈ publicSummaryLines ↔ r.isPrivate = false) ∧
        (summaryLine r ∈ privateSummaryLines ↔ r.isPrivate = true)) ∧
    publicSummaryLines.length = 2 ∧ privateSummaryLines.length = 7 := by
  refine ⟨?_, by decide, by decide, by decide⟩
  intro fails fs h
  simp [mainRun, h]

/-- Witness for c8_summary_partition: with nothing failing the loop
completes and the summary follows the loop trace. -/
theorem c8_summary_partition_witness :
    (mainLoop noFailure emptyFS REPOS_TO_CREATE).ok = true ∧
    (mainRun noFailure emptyFS).trace =
      PStep.log "🚀 Initializing missing Cloudflare Studio repositories...\n" ::
        ((mainLoop noFailure emptyFS REPOS_TO_CREATE).trace ++ summarySteps) :=
  ⟨by decide, c8_summary_partition.1 noFailure emptyFS (by decide)⟩

/-- C9: for every descriptor of the constant list, a fresh run issues the
snapshot commit command whose message is "feat: initial setup for <name>"
followed by a blank line and the description. -/
theorem c9_commit_message :
    ∀ r ∈ REPOS_TO_CREATE,
      gitCommitCmd r =
        "git commit -m \"feat: initial setup for " ++ r.name ++ "\n\n" ++
          r.description ++ "\"" ∧
      PStep.command (gitCommitCmd r) (repoPath r) ∈ (freshRun r).trace := by
  decide

/-- Witness for c9_commit_message at the monitoring descriptor. -/
theorem c9_commit_message_witness :
    monitoringRepo ∈ REPOS_TO_CREATE ∧
    (gitCommitCmd monitoringRepo =
      "git commit -m \"feat: initial setup for " ++ monitoringRepo.name ++ "\n\n" ++
        monitoringRepo.description ++ "\"" ∧
     PStep.command (gitCommitCmd monitoringRepo) (repoPath monitoringRepo) ∈
       (freshRun monitoringRepo).trace) :=
  ⟨by decide, c9_commit_message monitoringRepo (by decide)⟩

/-- C10: the plugin stub's class name and default-export expression are
derived from the descriptor name by splitting on '-', capitalizing each
segment's first character, concatenating and appending "Plugin";
name "plugin-ai" yields PluginAiPlugin, and for every plugin descriptor
of the constant list the generated source contains the corresponding
class declaration and default export. -/
theorem c10_plugin_class_name :
    pluginClassName "plugin-ai" = "PluginAiPlugin" ∧
    ∀ r ∈ REPOS_TO_CREATE, r.type = RepoType.plugin →
      strContainsSub (pluginCode r)
        ("export class " ++ pluginClassName r.name ++ " implements Plugin") = true ∧
      strContainsSub (pluginCode r)
        ("export default new " ++ pluginClassName r.name ++ "()") = true := by
  decide

/-- Witness for c10_plugin_class_name at the plugin descriptor
plugin-enterprise. -/
theorem c10_plugin_class_name_witness :
    pluginEnterpriseRepo ∈ REPOS_TO_CREATE ∧ pluginEnterpriseRepo.type = RepoType.plugin ∧
    (strContainsSub (pluginCode pluginEnterpriseRepo)
        ("export class " ++ pluginClassName pluginEnterpriseRepo.name ++
          " implements Plugin") = true ∧
     strContainsSub (pluginCode pluginEnterpriseRepo)
        ("export default new " ++ pluginClassName pluginEnterpriseRepo.name ++ "()") = true) :=
  ⟨by decide, rfl, c10_plugin_class_name.2 pluginEnterpriseRepo (by decide) rfl⟩

end InitRepos
